import Mathlib

/-!
# Verification of the ArcX analytics SDK's provider interception and
# connection-lifecycle logic

This file gives a shallow embedding of `src/ArcxAnalyticsSdk.ts` (the
socket-based SDK class): the wallet-provider interception installed by
`_trackTransactions` / `_trackSigning`, the provider attach/detach logic of
`setProvider`, and the connection lifecycle handlers
(`_onAccountsChanged`, `_handleAccountConnected`,
`_handleAccountDisconnected`, `_onChainChanged`, `_getCurrentChainId`),
together with the public emission methods.

Modelling conventions:
* JavaScript values flowing through request params and event attributes are
  modelled by `JVal` (strings, flat string-valued objects, string arrays and
  `undefined`, which also stands for `null`).
* A provider's `request` slot is modelled by `ReqFun`: the original function,
  possibly wrapped by the transaction and/or the signing interceptor.
  `runReq` gives the wrapped chain's semantics against a total response
  function `sem` describing the underlying provider (provider-side rejections
  are out of scope; property access on `undefined` does throw, as in JS).
* Observable effects are collected in a `List Output`: socket event emissions
  (`this.event`), remote log reports (`this._report`, i.e. a POST to
  `/log-sdk`), console warnings, and calls reaching the provider's original
  `request` function (`provCall`).
* The SDK runs single-threaded; `async` functions are run to completion and a
  call whose promise is not awaited by its caller (`_handleAccountConnected`
  in `_onAccountsChanged`, `_reportCurrentWallet` in
  `_initializeWeb3Tracking`) has its rejection absorbed by that caller, as an
  unhandled rejection does not propagate to the caller in JS.
* Thrown exceptions are modelled with `Except String`.
-/

namespace Arcx

/-- A JavaScript value, as needed by the SDK's request/attribute plumbing.
`undef` stands for both `undefined` and `null`; objects and arrays are flat
and string-valued. -/
inductive JVal where
  | undef
  | str (s : String)
  | arr (xs : List String)
  | obj (fields : List (String × String))
deriving DecidableEq, Repr

/-- JavaScript falsiness of a `JVal` (`!v`): `undefined`/`null` and the empty
string are falsy; arrays and objects are always truthy. -/
def JVal.isFalsy : JVal → Bool
  | .undef => true
  | .str s => s.isEmpty
  | .arr _ => false
  | .obj _ => false

/-- JavaScript string coercion of a `JVal` (template literals, `parseInt`). -/
def jvalToString : JVal → String
  | .undef => "undefined"
  | .str s => s
  | .arr xs => String.intercalate "," xs
  | .obj _ => "[object Object]"

/-- JavaScript property access `v[k]`: throws a `TypeError` on
`undefined`/`null`, returns `undefined` for a missing key. -/
def getProp : JVal → String → Except String JVal
  | .undef, k =>
      Except.error ("TypeError: Cannot read properties of undefined (reading " ++ k ++ ")")
  | .str s, k =>
      match k.toNat? with
      | some i => Except.ok (((s.data.get? i).map (fun c => JVal.str (Char.toString c))).getD JVal.undef)
      | none => Except.ok JVal.undef
  | .arr xs, k =>
      match k.toNat? with
      | some i => Except.ok (((xs.get? i).map JVal.str).getD JVal.undef)
      | none => Except.ok JVal.undef
  | .obj fs, k =>
      Except.ok (((fs.find? (fun p => p.1 == k)).map (fun p => JVal.str p.2)).getD JVal.undef)

/-- JavaScript object spread `\x7b...v\x7d`: spreading `undefined`/`null`
contributes nothing; objects contribute their fields; strings and arrays
contribute index-keyed entries. -/
def spreadFields : JVal → List (String × JVal)
  | .undef => []
  | .obj fs => fs.map (fun p => (p.1, JVal.str p.2))
  | .str s => s.data.enum.map (fun p => (toString p.1, JVal.str (Char.toString p.2)))
  | .arr xs => xs.enum.map (fun p => (toString p.1, JVal.str p.2))

/-- One hexadecimal digit, as accepted by `parseInt(-, 16)`. -/
def hexDigit? (c : Char) : Option Nat :=
  if '0' ≤ c ∧ c ≤ '9' then some (c.toNat - '0'.toNat)
  else if 'a' ≤ c ∧ c ≤ 'f' then some (c.toNat - 'a'.toNat + 10)
  else if 'A' ≤ c ∧ c ≤ 'F' then some (c.toNat - 'A'.toNat + 10)
  else none

/-- Consume leading hex digits, `none` when no digit was consumed (NaN). -/
def parseHexDigits : List Char → Nat → Bool → Option Nat
  | [], acc, seen => if seen then some acc else none
  | c :: rest, acc, seen =>
      match hexDigit? c with
      | some d => parseHexDigits rest (acc * 16 + d) true
      | none => if seen then some acc else none

/-- JavaScript `parseInt(s, 16)`: skip leading whitespace, optional sign,
optional `0x`/`0X` prefix, then consume hex digits; `none` models `NaN`. -/
def parseInt16 (s : String) : Option Int :=
  let cs := s.data.dropWhile (fun c => c = ' ' ∨ c = '\t' ∨ c = '\n' ∨ c = '\r')
  let signed : Bool × List Char :=
    match cs with
    | '-' :: r => (true, r)
    | '+' :: r => (false, r)
    | _ => (false, cs)
  let body :=
    match signed.2 with
    | '0' :: 'x' :: r => r
    | '0' :: 'X' :: r => r
    | _ => signed.2
  (parseHexDigits body 0 false).map (fun n => if signed.1 then -(n : Int) else (n : Int))

/-- JavaScript `parseInt(s, 16).toString()`. -/
def parseInt16String (s : String) : String :=
  match parseInt16 s with
  | none => "NaN"
  | some i => toString i

/- Event-name constants. -/

/-- Modelled from the spec: the event-name constants are imported from the
repository's `constants` module, which is not among the provided sources.
The claims depend only on these being distinct tokens naming the event
kinds the spec talks about. -/
def CONNECT_EVENT : String := "CONNECT"

/-- Modelled from the spec: see `CONNECT_EVENT`. -/
def DISCONNECT_EVENT : String := "DISCONNECT"

/-- Modelled from the spec: see `CONNECT_EVENT`. -/
def CHAIN_CHANGED_EVENT : String := "CHAIN_CHANGED"

/-- Modelled from the spec: see `CONNECT_EVENT`. -/
def TRANSACTION_TRIGGERED : String := "TRANSACTION_TRIGGERED"

/-- Modelled from the spec: see `CONNECT_EVENT`. -/
def SIGNING_EVENT : String := "SIGNING"

/-- Modelled from the spec: see `CONNECT_EVENT`. -/
def PAGE_EVENT : String := "PAGE"

/-- Modelled from the spec: see `CONNECT_EVENT`. -/
def TRANSACTION_EVENT : String := "TRANSACTION"

/-- Modelled from the spec: see `CONNECT_EVENT`. -/
def ATTRIBUTION_EVENT : String := "ATTRIBUTION"

/-- Modelled from the spec: see `CONNECT_EVENT`. -/
def REFERRER_EVENT : String := "REFERRER"

/-- Arguments of an EIP-1193 `request` call: `params` is `some` exactly when
`Array.isArray(params)` holds. -/
structure RequestArguments where
  method : String
  params : Option (List JVal)
deriving DecidableEq, Repr

/-- A provider's `request` slot: the original function, possibly wrapped by
the `_trackTransactions` and/or `_trackSigning` interceptor, each of which
saved the slot's value at install time (`saved`). -/
inductive ReqFun where
  | orig
  | txWrapped (saved : ReqFun)
  | signWrapped (saved : ReqFun)
deriving DecidableEq, Repr

/-- An observable effect of the SDK. -/
inductive Output where
  /-- `this.event(name, attributes)`: a `submit-event` socket emission. -/
  | emit (event : String) (attrs : List (String × JVal))
  /-- `this._report(logLevel, msg)`: a POST to `/log-sdk`. -/
  | reportLog (level : String) (msg : String)
  /-- `console.warn`. -/
  | consoleWarn (msg : String)
  /-- a call reaching the provider's original `request` function. -/
  | provCall (args : RequestArguments)
deriving DecidableEq, Repr

/-- Semantics of a (possibly wrapped) `request` slot `f`, against the
provider's underlying response function `sem`.  `top` is the value currently
stored in the provider's `request` property, which the transaction wrapper's
closure re-enters for its `eth_getTransactionCount` nonce fetch.  The `aux`
flag is a termination device only: it is lowered on that re-entrant call,
whose method is `eth_getTransactionCount`, so the guarded
`eth_sendTransaction` branch could not fire on it anyway. -/
def runReq (sem : RequestArguments → JVal) :
    Bool → ReqFun → ReqFun → RequestArguments → List Output × Except String JVal
  | _, _, ReqFun.orig, args => ([Output.provCall args], Except.ok (sem args))
  | aux, top, ReqFun.signWrapped saved, args =>
      let evs : List Output :=
        match args.params with
        | some ps =>
            (if args.method = "signTypedData_v4" ∨ args.method = "eth_sign" then
              [Output.emit SIGNING_EVENT
                [("account", ps.getD 0 JVal.undef), ("messageToSign", ps.getD 1 JVal.undef)]]
            else []) ++
            (if args.method = "personal_sign" then
              [Output.emit SIGNING_EVENT
                [("messageToSign", ps.getD 0 JVal.undef), ("account", ps.getD 1 JVal.undef),
                 ("password", ps.getD 2 JVal.undef)]]
            else [])
        | none => []
      let r := runReq sem aux top saved args
      (evs ++ r.1, r.2)
  | aux, top, ReqFun.txWrapped saved, args =>
      match args.params with
      | some ps =>
          if h : aux = true ∧ args.method = "eth_sendTransaction" then
            let transactionParams := ps.getD 0 JVal.undef
            match getProp transactionParams "from" with
            | Except.error e => ([], Except.error e)
            | Except.ok fromV =>
                match runReq sem false top top
                    ⟨"eth_getTransactionCount", some [fromV, JVal.str "latest"]⟩ with
                | (o₀, Except.error e) => (o₀, Except.error e)
                | (o₀, Except.ok nonce) =>
                    let r := runReq sem aux top saved args
                    (o₀ ++
                      [Output.emit TRANSACTION_TRIGGERED
                        (spreadFields transactionParams ++ [("nonce", nonce)])] ++ r.1, r.2)
          else
            runReq sem aux top saved args
      | none => runReq sem aux top saved args
termination_by aux top f args => ((if aux then 1 else 0), sizeOf f)
decreasing_by
  all_goals simp_wf
  all_goals try simp [h.1]
  all_goals omega

/-- A wallet-provider object: `nonWritable` models
`Object.getOwnPropertyDescriptor(provider, 'request')?.writable === false`,
`request` is the current value of the provider's `request` property, and
`listeners` the listeners attached through `on` (event name × listener
identity). -/
structure ProviderObj where
  nonWritable : Bool
  request : ReqFun
  listeners : List (String × Nat)
deriving DecidableEq, Repr

/-- The provider object used when an index is out of range (never reached by
the claims, which constrain the indices involved). -/
def defaultProvider : ProviderObj := ⟨false, ReqFun.orig, []⟩

/-- The mutable external world: the provider objects, addressed by index
(object identity for the `===` comparison in `setProvider`). -/
structure World where
  providers : List ProviderObj
deriving DecidableEq, Repr

/-- Read a provider object. -/
def World.getP (w : World) (pid : Nat) : ProviderObj :=
  w.providers.getD pid defaultProvider

/-- Overwrite a provider object. -/
def World.setP (w : World) (pid : Nat) (p : ProviderObj) : World :=
  ⟨w.providers.set pid p⟩

/-- `record[k] = v` on a JavaScript record modelled as a key-unique
association list: replace the binding if the key exists, else append. -/
def recordSet (m : List (String × Nat)) (k : String) (v : Nat) : List (String × Nat) :=
  match m with
  | [] => [(k, v)]
  | (k', v') :: rest => if k' = k then (k, v) :: rest else (k', v') :: recordSet rest k v

/-- Remove the first occurrence of the pair `(n, l)`, as
`provider.removeListener(n, l)` removes one registration of that listener. -/
def removeFirst : List (String × Nat) → String → Nat → List (String × Nat)
  | [], _, _ => []
  | (n', l') :: rest, n, l =>
      if n' = n ∧ l' = l then rest else (n', l') :: removeFirst rest n l

/-- `provider.on(n, l)`: append a listener registration. -/
def World.onP (w : World) (pid : Nat) (n : String) (l : Nat) : World :=
  w.setP pid { w.getP pid with listeners := (w.getP pid).listeners ++ [(n, l)] }

/-- `provider.removeListener(n, l)`. -/
def World.removeListenerP (w : World) (pid : Nat) (n : String) (l : Nat) : World :=
  w.setP pid { w.getP pid with listeners := removeFirst (w.getP pid).listeners n l }

/-- The SDK configuration flags (`SdkConfig`), immutable after `init`. -/
structure SdkConfig where
  cacheIdentity : Bool
  trackPages : Bool
  trackReferrer : Bool
  trackUTM : Bool
  trackWalletConnections : Bool
  trackChainChanges : Bool
  trackTransactions : Bool
  trackSigning : Bool
  trackClicks : Bool
deriving DecidableEq, Repr

/-- The instance state of `ArcxAnalyticsSdk`: the attached provider
(`_provider`), the saved `_originalRequest`, the `_registeredProviderListeners`
record, the session-identity pair `currentChainId` / `currentConnectedAccount`,
and a counter supplying fresh identities for listener closures. -/
structure SdkState where
  sdkConfig : SdkConfig
  provider : Option Nat
  originalRequest : Option ReqFun
  registeredProviderListeners : List (String × Nat)
  nextListenerId : Nat
  currentChainId : Option String
  currentConnectedAccount : Option String
deriving DecidableEq, Repr

/-- Decidable equality of `Except` outcomes. -/
instance {ε α : Type} [DecidableEq ε] [DecidableEq α] : DecidableEq (Except ε α) := fun a b =>
  match a, b with
  | Except.error e, Except.error f => decidable_of_iff (e = f) (by simp)
  | Except.ok x, Except.ok y => decidable_of_iff (x = y) (by simp)
  | Except.error _, Except.ok _ => isFalse (by simp)
  | Except.ok _, Except.error _ => isFalse (by simp)

/-- Result of running an SDK method: its observable outputs, the updated
instance state and world, and its outcome (`Except.error` models a thrown
exception / rejected promise). -/
structure MRes (α : Type) where
  out : List Output
  sdk : SdkState
  world : World
  res : Except String α
deriving DecidableEq, Repr

/-- JavaScript falsiness of `currentChainId` / `currentConnectedAccount`
(`undefined`, `null` or the empty string). -/
def falsyOptStr : Option String → Bool
  | none => true
  | some s => s.isEmpty

/-- Calling the `request` function currently stored on provider `pid`. -/
def providerRequest (sem : Nat → RequestArguments → JVal) (w : World) (pid : Nat)
    (args : RequestArguments) : List Output × Except String JVal :=
  runReq (sem pid) true (w.getP pid).request (w.getP pid).request args

/-- `this._report(logLevel, msg)`: a POST of a log payload to `/log-sdk`. -/
def _report (logLevel : String) (msg : String) : Output :=
  Output.reportLog logLevel msg

/-- `this._reportErrorAndThrow(error)`: report at level `error`, then throw. -/
def _reportErrorAndThrow {α : Type} (error : String) : List Output × Except String α :=
  ([_report "error" error], Except.error error)

/-- `this._getCurrentChainId()`: throws if no provider is set, requests
`eth_chainId`, throws if the response is falsy, else returns
`parseInt(chainIdHex, 16).toString()`. -/
def _getCurrentChainId (sem : Nat → RequestArguments → JVal) (s : SdkState) (w : World) :
    List Output × Except String String :=
  match s.provider with
  | none => _reportErrorAndThrow "ArcxAnalyticsSdk::_getCurrentChainId: provider not set"
  | some pid =>
      match providerRequest sem w pid ⟨"eth_chainId", none⟩ with
      | (o, Except.error e) => (o, Except.error e)
      | (o, Except.ok chainIdHex) =>
          if chainIdHex.isFalsy then
            let rt : List Output × Except String String :=
              _reportErrorAndThrow
                ("ArcxAnalyticsSdk::_getCurrentChainId: chainIdHex is: " ++ jvalToString chainIdHex)
            (o ++ rt.1, rt.2)
          else
            (o, Except.ok (parseInt16String (jvalToString chainIdHex)))

/-- `this.event(event, attributes)`: one `submit-event` socket emission. -/
def event (eventName : String) (attributes : List (String × JVal)) : List Output :=
  [Output.emit eventName attributes]

/-- `this.connectWallet(\x7bchain, account\x7d)`. -/
def connectWallet (chain : String) (account : String) : List Output :=
  event CONNECT_EVENT [("chain", JVal.str chain), ("account", JVal.str account)]

/-- `this._handleAccountConnected(account)`: skip if the account is already
the connected one, else record it, fetch the chain id (which may throw) and
emit the connect event. -/
def _handleAccountConnected (sem : Nat → RequestArguments → JVal) (account : String)
    (s : SdkState) (w : World) : MRes Unit :=
  if s.currentConnectedAccount = some account then ⟨[], s, w, Except.ok ()⟩
  else
    let s₁ := { s with currentConnectedAccount := some account }
    match _getCurrentChainId sem s₁ w with
    | (o, Except.error e) => ⟨o, s₁, w, Except.error e⟩
    | (o, Except.ok chain) =>
        let s₂ := { s₁ with currentChainId := some chain }
        ⟨o ++ connectWallet chain account, s₂, w, Except.ok ()⟩

/-- `this._handleAccountDisconnected()`: without a previously recorded chain
and account it reports a warning and returns; otherwise it emits the
disconnect event with the last known values and clears both fields. -/
def _handleAccountDisconnected (s : SdkState) : List Output × SdkState :=
  if falsyOptStr s.currentChainId ∨ falsyOptStr s.currentConnectedAccount then
    ([_report "warning"
        "ArcxAnalyticsSdk::_handleAccountDisconnected: previousChainId or previousConnectedAccount is not set"],
     s)
  else
    let disconnectAttributes :=
      [("account", JVal.str (s.currentConnectedAccount.getD "")),
       ("chain", JVal.str (s.currentChainId.getD ""))]
    let s' := { s with currentChainId := none, currentConnectedAccount := none }
    (event DISCONNECT_EVENT disconnectAttributes, s')

/-- The instance states observable while `_handleAccountDisconnected` runs:
the function body contains no `await`, so in the single-threaded event loop
the only observation points are its entry and its completion. -/
def _handleAccountDisconnectedTrace (s : SdkState) : List SdkState :=
  [s, (_handleAccountDisconnected s).2]

/-- The `accountsChanged` listener body (`_onAccountsChanged`): a non-empty
account list connects, an empty one disconnects.  `_handleAccountConnected`
is not awaited, so its rejection does not propagate. -/
def _onAccountsChanged (sem : Nat → RequestArguments → JVal) (accounts : List String)
    (s : SdkState) (w : World) : MRes Unit :=
  match accounts with
  | account :: _ =>
      let r := _handleAccountConnected sem account s w
      ⟨r.out, r.sdk, r.world, Except.ok ()⟩
  | [] =>
      let r := _handleAccountDisconnected s
      ⟨r.1, r.2, w, Except.ok ()⟩

/-- The `chainChanged` listener body (`_onChainChanged`). -/
def _onChainChanged (chainIdHex : String) (s : SdkState) : List Output × SdkState :=
  let c := parseInt16String chainIdHex
  (event CHAIN_CHANGED_EVENT [("chain", JVal.str c)], { s with currentChainId := some c })

/-- Assigning `provider.request = f`: in strict mode this throws when the
property is non-writable; the SDK always guards this assignment. -/
def setRequestSlot (w : World) (pid : Nat) (f : ReqFun) : Except String World :=
  if (w.getP pid).nonWritable then
    Except.error "TypeError: Cannot assign to read only property request"
  else
    Except.ok (w.setP pid { w.getP pid with request := f })

/-- `this._trackTransactions()`: report and return `false` when the provider
is missing or its `request` property non-writable; otherwise wrap the current
`request` value with the transaction interceptor and return `true`. -/
def _trackTransactions (s : SdkState) (w : World) : MRes Bool :=
  match s.provider with
  | none =>
      ⟨[_report "error" "ArcxAnalyticsSdk::_trackTransactions: provider not found"],
       s, w, Except.ok false⟩
  | some pid =>
      if (w.getP pid).nonWritable then
        ⟨[_report "warning" "ArcxAnalyticsSdk::_trackTransactions: provider.request is not writable"],
         s, w, Except.ok false⟩
      else
        match setRequestSlot w pid (ReqFun.txWrapped (w.getP pid).request) with
        | Except.error e => ⟨[], s, w, Except.error e⟩
        | Except.ok w' => ⟨[], s, w', Except.ok true⟩

/-- `this._trackSigning()`: like `_trackTransactions` but installing the
signing interceptor (its report messages say `_trackTransactions`, faithful
to the source). -/
def _trackSigning (s : SdkState) (w : World) : MRes Bool :=
  match s.provider with
  | none =>
      ⟨[_report "error" "ArcxAnalyticsSdk::_trackTransactions: provider not found"],
       s, w, Except.ok false⟩
  | some pid =>
      if (w.getP pid).nonWritable then
        ⟨[_report "warning" "ArcxAnalyticsSdk::_trackTransactions: provider.request is not writable"],
         s, w, Except.ok false⟩
      else
        match setRequestSlot w pid (ReqFun.signWrapped (w.getP pid).request) with
        | Except.error e => ⟨[], s, w, Except.error e⟩
        | Except.ok w' => ⟨[], s, w', Except.ok true⟩

/-- `this._registerAccountsChangedListener()`: attach fresh `accountsChanged`
and `disconnect` listeners (when a provider is present) and record both in
the listener map. -/
def _registerAccountsChangedListener (s : SdkState) (w : World) : SdkState × World :=
  let listener := s.nextListenerId
  let w₁ :=
    match s.provider with
    | some pid => w.onP pid "accountsChanged" listener
    | none => w
  let m₁ := recordSet s.registeredProviderListeners "accountsChanged" listener
  let handleDisconnected := s.nextListenerId + 1
  let w₂ :=
    match s.provider with
    | some pid => w₁.onP pid "disconnect" handleDisconnected
    | none => w₁
  let m₂ := recordSet m₁ "disconnect" handleDisconnected
  ({ s with registeredProviderListeners := m₂, nextListenerId := s.nextListenerId + 2 }, w₂)

/-- `this._registerChainChangedListener()`. -/
def _registerChainChangedListener (s : SdkState) (w : World) : SdkState × World :=
  let listener := s.nextListenerId
  let w₁ :=
    match s.provider with
    | some pid => w.onP pid "chainChanged" listener
    | none => w
  let m₁ := recordSet s.registeredProviderListeners "chainChanged" listener
  ({ s with registeredProviderListeners := m₁, nextListenerId := s.nextListenerId + 1 }, w₁)

/-- The `accounts && accounts.length > 0 && accounts[0]` test of
`_reportCurrentWallet`, returning the truthy first account if any. -/
def ethAccountsFirst : JVal → Option String
  | JVal.arr (x :: _) => if x.isEmpty then none else some x
  | JVal.arr [] => none
  | JVal.str s =>
      match s.data with
      | [] => none
      | c :: _ => some (Char.toString c)
  | _ => none

/-- `this._reportCurrentWallet()`: request `eth_accounts` and, when a truthy
first account is present, run `_handleAccountConnected` on it (not awaited,
so its rejection does not propagate). -/
def _reportCurrentWallet (sem : Nat → RequestArguments → JVal) (s : SdkState) (w : World) :
    MRes Unit :=
  match s.provider with
  | none =>
      ⟨[Output.consoleWarn "ArcxAnalyticsSdk::_reportCurrentWallet: the provider is not set"],
       s, w, Except.ok ()⟩
  | some pid =>
      match providerRequest sem w pid ⟨"eth_accounts", none⟩ with
      | (o, Except.error e) => ⟨o, s, w, Except.error e⟩
      | (o, Except.ok accounts) =>
          match ethAccountsFirst accounts with
          | some account =>
              let r := _handleAccountConnected sem account s w
              ⟨o ++ r.out, r.sdk, r.world, Except.ok ()⟩
          | none => ⟨o, s, w, Except.ok ()⟩

/-- `this._initializeWeb3Tracking()`: with a provider present, register the
configured listeners and interceptors.  `_reportCurrentWallet` is `async` and
fire-and-forget in the source; its continuation (which runs after the
synchronous registrations) is placed last here. -/
def _initializeWeb3Tracking (sem : Nat → RequestArguments → JVal) (s : SdkState) (w : World) :
    MRes Unit :=
  match s.provider with
  | none => ⟨[], s, w, Except.ok ()⟩
  | some _ =>
      let p₁ := if s.sdkConfig.trackWalletConnections then _registerAccountsChangedListener s w
                else (s, w)
      let p₂ := if p₁.1.sdkConfig.trackChainChanges then _registerChainChangedListener p₁.1 p₁.2
                else p₁
      let r₃ : MRes Bool :=
        if p₂.1.sdkConfig.trackSigning then _trackSigning p₂.1 p₂.2
        else ⟨[], p₂.1, p₂.2, Except.ok false⟩
      let r₄ : MRes Bool :=
        if p₂.1.sdkConfig.trackTransactions then _trackTransactions p₂.1 r₃.world
        else ⟨[], p₂.1, r₃.world, Except.ok false⟩
      let r₅ : MRes Unit :=
        if p₂.1.sdkConfig.trackWalletConnections then _reportCurrentWallet sem p₂.1 r₄.world
        else ⟨[], p₂.1, r₄.world, Except.ok ()⟩
      ⟨r₃.out ++ r₄.out ++ r₅.out, r₅.sdk, r₅.world, Except.ok ()⟩

/-- The `for (const eventName of eventNames)` loop of `setProvider`: remove
each recorded listener from the old provider. -/
def detachListeners (pid : Nat) : List (String × Nat) → World → World
  | [], w => w
  | (eventName, listener) :: rest, w =>
      detachListeners pid rest (w.removeListenerP pid eventName listener)

/-- The detach half of `setProvider`: remove all recorded listeners from the
old provider, empty the listener map, and restore the saved original
`request` when one is saved and the property is writable. -/
def setProviderDetached (s : SdkState) (w : World) : SdkState × World :=
  match s.provider with
  | none => (s, w)
  | some oldPid =>
      let w₁ := detachListeners oldPid s.registeredProviderListeners w
      let s₁ := { s with registeredProviderListeners := [] }
      let w₂ :=
        match s₁.originalRequest with
        | some original =>
            if (w₁.getP oldPid).nonWritable then w₁
            else w₁.setP oldPid { w₁.getP oldPid with request := original }
        | none => w₁
      (s₁, w₂)

/-- `this.setProvider(provider)`: no-op on the identical provider, else clear
the session identity, detach from the old provider, record the new provider
and its current `request` as `_originalRequest`, and initialize tracking. -/
def setProvider (sem : Nat → RequestArguments → JVal) (provider : Option Nat)
    (s : SdkState) (w : World) : MRes Unit :=
  if provider = s.provider then ⟨[], s, w, Except.ok ()⟩
  else
    let s₁ := { s with currentChainId := none, currentConnectedAccount := none }
    let d := setProviderDetached s₁ w
    let s₃ := { d.1 with provider := provider,
                         originalRequest := provider.map (fun pid => (d.2.getP pid).request) }
    _initializeWeb3Tracking sem s₃ d.2

/-- `this.page(attributes)`: throws on a falsy `url`, else emits one page
event. -/
def page (url : Option String) : List Output × Except String Unit :=
  if falsyOptStr url then ([], Except.error "ArcxAnalyticsSdk::page: url cannot be empty")
  else (event PAGE_EVENT [("url", JVal.str (url.getD ""))], Except.ok ())

/-- `this.attribute(attributes)` (named `attributeMethod`, as `attribute` is
reserved in Lean). -/
def attributeMethod (attributes : List (String × JVal)) : List Output :=
  event ATTRIBUTION_EVENT attributes

/-- `this.transaction(attributes)`. -/
def transaction (chain : String) (transactionHash : String) (metadata : Option JVal) :
    List Output :=
  event TRANSACTION_EVENT
    [("chain", JVal.str chain), ("transaction_hash", JVal.str transactionHash),
     ("metadata", metadata.getD (JVal.obj []))]

/-- `this.referrer(referrer)`: `referrer || document.referrer`. -/
def referrer (referrerArg : Option String) (documentReferrer : String) : List Output :=
  let r :=
    match referrerArg with
    | some r => if r.isEmpty then documentReferrer else r
    | none => documentReferrer
  event REFERRER_EVENT [("referrer", JVal.str r)]

/-- The SDK operations other than the provider-event handlers and
`setProvider`, used to state frame properties over the public surface. -/
inductive SdkOp where
  | opEvent (eventName : String) (attributes : List (String × JVal))
  | opAttribute (attributes : List (String × JVal))
  | opPage (url : Option String)
  | opConnectWallet (chain account : String)
  | opTransaction (chain transactionHash : String) (metadata : Option JVal)
  | opReferrer (referrerArg : Option String) (documentReferrer : String)
  | opReport (logLevel msg : String)
  | opTrackSigning
  | opTrackTransactions
deriving DecidableEq, Repr

/-- Run one `SdkOp` against the instance state and the world. -/
def runOp : SdkOp → SdkState → World → MRes Unit
  | SdkOp.opEvent n a, s, w => ⟨event n a, s, w, Except.ok ()⟩
  | SdkOp.opAttribute a, s, w => ⟨attributeMethod a, s, w, Except.ok ()⟩
  | SdkOp.opPage u, s, w =>
      let r := page u
      ⟨r.1, s, w, r.2⟩
  | SdkOp.opConnectWallet c a, s, w => ⟨connectWallet c a, s, w, Except.ok ()⟩
  | SdkOp.opTransaction c t m, s, w => ⟨transaction c t m, s, w, Except.ok ()⟩
  | SdkOp.opReferrer r d, s, w => ⟨referrer r d, s, w, Except.ok ()⟩
  | SdkOp.opReport l m, s, w => ⟨[_report l m], s, w, Except.ok ()⟩
  | SdkOp.opTrackSigning, s, w =>
      let r := _trackSigning s w
      ⟨r.out, r.sdk, r.world, r.res.map (fun _ => ())⟩
  | SdkOp.opTrackTransactions, s, w =>
      let r := _trackTransactions s w
      ⟨r.out, r.sdk, r.world, r.res.map (fun _ => ())⟩

/-! ## Sample data used by witnesses -/

/-- A sample configuration with every tracking flag disabled. -/
def cfgOff : SdkConfig := ⟨false, false, false, false, false, false, false, false, false⟩

/-- A sample configuration with the web3 tracking flags enabled. -/
def cfgOn : SdkConfig := ⟨false, false, false, false, true, true, true, true, false⟩

/-- A sample provider semantics: `eth_chainId` answers `0xa`, `eth_accounts`
answers an empty account list, everything else answers `0x1`. -/
def semA : Nat → RequestArguments → JVal := fun _ a =>
  if a.method = "eth_chainId" then JVal.str "0xa"
  else if a.method = "eth_accounts" then JVal.arr []
  else JVal.str "0x1"

/-! ## Claims -/

/-- **C1**: for every provider whose `request` property descriptor is
non-writable, `_trackTransactions` and `_trackSigning` never throw: each
detects non-writability before wrapping, reports a warning, leaves the
provider's `request` function (and everything else) unchanged, and returns
`false`. -/
theorem C1_nonwritable_interception_is_noop (s : SdkState) (w : World) (pid : Nat)
    (hprov : s.provider = some pid) (hnw : (w.getP pid).nonWritable = true) :
    _trackTransactions s w =
      ⟨[_report "warning" "ArcxAnalyticsSdk::_trackTransactions: provider.request is not writable"],
       s, w, Except.ok false⟩ ∧
    _trackSigning s w =
      ⟨[_report "warning" "ArcxAnalyticsSdk::_trackTransactions: provider.request is not writable"],
       s, w, Except.ok false⟩ := by
  constructor <;> simp [_trackTransactions, _trackSigning, hprov, hnw]

/-- Witness for **C1** on a concrete non-writable provider. -/
theorem C1_nonwritable_interception_is_noop_witness :
    (SdkState.mk cfgOn (some 0) (some ReqFun.orig) [] 0 none none).provider = some 0 ∧
    ((World.mk [⟨true, ReqFun.orig, []⟩]).getP 0).nonWritable = true ∧
    (_trackTransactions (SdkState.mk cfgOn (some 0) (some ReqFun.orig) [] 0 none none)
        (World.mk [⟨true, ReqFun.orig, []⟩]) =
      ⟨[_report "warning" "ArcxAnalyticsSdk::_trackTransactions: provider.request is not writable"],
       SdkState.mk cfgOn (some 0) (some ReqFun.orig) [] 0 none none,
       World.mk [⟨true, ReqFun.orig, []⟩], Except.ok false⟩ ∧
     _trackSigning (SdkState.mk cfgOn (some 0) (some ReqFun.orig) [] 0 none none)
        (World.mk [⟨true, ReqFun.orig, []⟩]) =
      ⟨[_report "warning" "ArcxAnalyticsSdk::_trackTransactions: provider.request is not writable"],
       SdkState.mk cfgOn (some 0) (some ReqFun.orig) [] 0 none none,
       World.mk [⟨true, ReqFun.orig, []⟩], Except.ok false⟩) :=
  ⟨rfl, rfl, C1_nonwritable_interception_is_noop _ _ 0 rfl rfl⟩

/-- **C5**: from a connected state (both `currentChainId` and
`currentConnectedAccount` set, i.e. truthy), handling a disconnect emits one
disconnect event carrying the last known account and chain and clears both
fields; every state observable at the handler's suspension points (its entry
and its completion — the body has no `await`) has either both fields set or
both cleared. -/
theorem C5_disconnect_clears_both_atomically (s : SdkState) (c a : String)
    (hc : s.currentChainId = some c) (ha : s.currentConnectedAccount = some a)
    (hc0 : c.isEmpty = false) (ha0 : a.isEmpty = false) :
    _handleAccountDisconnected s =
      ([Output.emit DISCONNECT_EVENT [("account", JVal.str a), ("chain", JVal.str c)]],
       { s with currentChainId := none, currentConnectedAccount := none }) ∧
    ∀ t ∈ _handleAccountDisconnectedTrace s,
      (t.currentChainId.isSome ∧ t.currentConnectedAccount.isSome) ∨
      (t.currentChainId = none ∧ t.currentConnectedAccount = none) := by
  have hmain : _handleAccountDisconnected s =
      ([Output.emit DISCONNECT_EVENT [("account", JVal.str a), ("chain", JVal.str c)]],
       { s with currentChainId := none, currentConnectedAccount := none }) := by
    simp [_handleAccountDisconnected, falsyOptStr, hc, ha, hc0, ha0, event]
  refine ⟨hmain, ?_⟩
  intro t ht
  simp [_handleAccountDisconnectedTrace, hmain] at ht
  rcases ht with h | h
  · exact Or.inl (by simp [h, hc, ha])
  · exact Or.inr (by simp [h])

/-- Witness for **C5** on a concrete connected state. -/
theorem C5_disconnect_clears_both_atomically_witness :
    (SdkState.mk cfgOn (some 0) (some ReqFun.orig) [] 0 (some "10") (some "0xabc")).currentChainId
        = some "10" ∧
    (SdkState.mk cfgOn (some 0) (some ReqFun.orig) [] 0 (some "10")
        (some "0xabc")).currentConnectedAccount = some "0xabc" ∧
    String.isEmpty "10" = false ∧ String.isEmpty "0xabc" = false ∧
    (_handleAccountDisconnected
        (SdkState.mk cfgOn (some 0) (some ReqFun.orig) [] 0 (some "10") (some "0xabc")) =
      ([Output.emit DISCONNECT_EVENT [("account", JVal.str "0xabc"), ("chain", JVal.str "10")]],
       SdkState.mk cfgOn (some 0) (some ReqFun.orig) [] 0 none none) ∧
     ∀ t ∈ _handleAccountDisconnectedTrace
        (SdkState.mk cfgOn (some 0) (some ReqFun.orig) [] 0 (some "10") (some "0xabc")),
       (t.currentChainId.isSome ∧ t.currentConnectedAccount.isSome) ∨
       (t.currentChainId = none ∧ t.currentConnectedAccount = none)) :=
  ⟨rfl, rfl, rfl, rfl,
   C5_disconnect_clears_both_atomically _ "10" "0xabc" rfl rfl rfl rfl⟩

/-- **C6**: in every state where `currentChainId` or
`currentConnectedAccount` is unset (falsy), handling a disconnect reports a
warning to the remote endpoint, emits no disconnect event, changes nothing,
and returns normally (the handler is a total function of the state: no
exception is raised and execution continues). -/
theorem C6_disconnect_without_state_reports_warning (s : SdkState)
    (h : falsyOptStr s.currentChainId = true ∨ falsyOptStr s.currentConnectedAccount = true) :
    _handleAccountDisconnected s =
      ([_report "warning"
          "ArcxAnalyticsSdk::_handleAccountDisconnected: previousChainId or previousConnectedAccount is not set"],
       s) := by
  rcases h with h | h <;> simp [_handleAccountDisconnected, h]

/-- Witness for **C6** on a concrete disconnected state. -/
theorem C6_disconnect_without_state_reports_warning_witness :
    (falsyOptStr (SdkState.mk cfgOn (some 0) (some ReqFun.orig) [] 0 none none).currentChainId = true ∨
     falsyOptStr (SdkState.mk cfgOn (some 0) (some ReqFun.orig) [] 0 none
        none).currentConnectedAccount = true) ∧
    _handleAccountDisconnected (SdkState.mk cfgOn (some 0) (some ReqFun.orig) [] 0 none none) =
      ([_report "warning"
          "ArcxAnalyticsSdk::_handleAccountDisconnected: previousChainId or previousConnectedAccount is not set"],
       SdkState.mk cfgOn (some 0) (some ReqFun.orig) [] 0 none none) :=
  ⟨Or.inl rfl,
   C6_disconnect_without_state_reports_warning _ (Or.inl rfl)⟩

/-- **C10**: the public `page` method throws (with no event emitted) when the
`url` attribute is absent or the empty string, and emits exactly one page
event carrying the url otherwise. -/
theorem C10_page_rejects_empty_url (url : Option String) :
    (url = none ∨ url = some "" →
      page url = ([], Except.error "ArcxAnalyticsSdk::page: url cannot be empty")) ∧
    (∀ u, url = some u → u ≠ "" →
      page url = ([Output.emit PAGE_EVENT [("url", JVal.str u)]], Except.ok ())) := by
  constructor
  · rintro (rfl | rfl) <;> decide
  · rintro u rfl hu
    have : u.isEmpty = false := by
      cases hiu : u.isEmpty
      · rfl
      · exact absurd (String.isEmpty_iff u |>.mp hiu) hu
    simp [page, falsyOptStr, this, event]

/-- Witness for **C10** on the empty and on a non-empty url. -/
theorem C10_page_rejects_empty_url_witness :
    page (some "") = ([], Except.error "ArcxAnalyticsSdk::page: url cannot be empty") ∧
    page (some "https://a.example") =
      ([Output.emit PAGE_EVENT [("url", JVal.str "https://a.example")]], Except.ok ()) :=
  ⟨(C10_page_rejects_empty_url (some "")).1 (Or.inr rfl),
   (C10_page_rejects_empty_url (some "https://a.example")).2 "https://a.example" rfl (by decide)⟩

/-- `_getCurrentChainId` reads only the `provider` field of the state. -/
theorem getCurrentChainId_congr (sem : Nat → RequestArguments → JVal) (s s' : SdkState)
    (w : World) (h : s'.provider = s.provider) :
    _getCurrentChainId sem s' w = _getCurrentChainId sem s w := by
  unfold _getCurrentChainId
  rw [h]

/-- **C8**: whenever `_getCurrentChainId` runs with no provider set, or with a
provider whose `eth_chainId` response is empty/null, it reports an error to
the remote endpoint and then raises, and the exception terminates only the
triggering call chain: the connect handler that awaited it ends in the same
rejection while the instance state (beyond the account it had just recorded)
and the provider world are untouched. -/
theorem C8_chainid_failure_reports_then_throws (sem : Nat → RequestArguments → JVal)
    (s : SdkState) (w : World) :
    (s.provider = none →
      _getCurrentChainId sem s w =
        ([_report "error" "ArcxAnalyticsSdk::_getCurrentChainId: provider not set"],
         Except.error "ArcxAnalyticsSdk::_getCurrentChainId: provider not set")) ∧
    (∀ pid, s.provider = some pid → (w.getP pid).request = ReqFun.orig →
      (sem pid ⟨"eth_chainId", none⟩).isFalsy = true →
      _getCurrentChainId sem s w =
        ([Output.provCall ⟨"eth_chainId", none⟩,
          _report "error"
            ("ArcxAnalyticsSdk::_getCurrentChainId: chainIdHex is: " ++
              jvalToString (sem pid ⟨"eth_chainId", none⟩))],
         Except.error
           ("ArcxAnalyticsSdk::_getCurrentChainId: chainIdHex is: " ++
             jvalToString (sem pid ⟨"eth_chainId", none⟩)))) ∧
    (∀ a, s.currentConnectedAccount = none →
      (s.provider = none ∨
        ∃ pid, s.provider = some pid ∧ (w.getP pid).request = ReqFun.orig ∧
          (sem pid ⟨"eth_chainId", none⟩).isFalsy = true) →
      (_getCurrentChainId sem s w).2.isOk = false ∧
      _handleAccountConnected sem a s w =
        ⟨(_getCurrentChainId sem s w).1, { s with currentConnectedAccount := some a }, w,
         Except.map (fun _ => ()) (_getCurrentChainId sem s w).2⟩) := by
  have hnone : s.provider = none →
      _getCurrentChainId sem s w =
        ([_report "error" "ArcxAnalyticsSdk::_getCurrentChainId: provider not set"],
         Except.error "ArcxAnalyticsSdk::_getCurrentChainId: provider not set") := by
    intro h
    simp [_getCurrentChainId, _reportErrorAndThrow, h]
  have hfalsy : ∀ pid, s.provider = some pid → (w.getP pid).request = ReqFun.orig →
      (sem pid ⟨"eth_chainId", none⟩).isFalsy = true →
      _getCurrentChainId sem s w =
        ([Output.provCall ⟨"eth_chainId", none⟩,
          _report "error"
            ("ArcxAnalyticsSdk::_getCurrentChainId: chainIdHex is: " ++
              jvalToString (sem pid ⟨"eth_chainId", none⟩))],
         Except.error
           ("ArcxAnalyticsSdk::_getCurrentChainId: chainIdHex is: " ++
             jvalToString (sem pid ⟨"eth_chainId", none⟩))) := by
    intro pid h1 h2 h3
    simp [_getCurrentChainId, providerRequest, h1, h2, runReq, h3, _reportErrorAndThrow]
  refine ⟨hnone, hfalsy, ?_⟩
  intro a ha hcase
  have herr : ∃ e, _getCurrentChainId sem s w =
      (( _getCurrentChainId sem s w).1, Except.error e) := by
    rcases hcase with h | ⟨pid, h1, h2, h3⟩
    · exact ⟨_, by rw [hnone h]⟩
    · exact ⟨_, by rw [hfalsy pid h1 h2 h3]⟩
  rcases herr with ⟨e, he⟩
  have he2 : (_getCurrentChainId sem s w).2 = Except.error e := by
    rw [he]
  have hne : ¬s.currentConnectedAccount = some a := by
    rw [ha]; simp
  have hcongr : _getCurrentChainId sem { s with currentConnectedAccount := some a } w =
      _getCurrentChainId sem s w := getCurrentChainId_congr sem s _ w rfl
  constructor
  · rw [he2]; rfl
  · simp only [_handleAccountConnected, if_neg hne, hcongr, he2]
    rw [he]
    simp [Except.map]

/-- Witness for **C8**: a missing provider and an empty `eth_chainId`
response, both on concrete states. -/
theorem C8_chainid_failure_reports_then_throws_witness :
    (_getCurrentChainId (fun _ _ => JVal.str "") (SdkState.mk cfgOn none none [] 0 none none)
        (World.mk []) =
      ([_report "error" "ArcxAnalyticsSdk::_getCurrentChainId: provider not set"],
       Except.error "ArcxAnalyticsSdk::_getCurrentChainId: provider not set")) ∧
    (_getCurrentChainId (fun _ _ => JVal.str "")
        (SdkState.mk cfgOn (some 0) (some ReqFun.orig) [] 0 none none)
        (World.mk [⟨false, ReqFun.orig, []⟩]) =
      ([Output.provCall ⟨"eth_chainId", none⟩,
        _report "error"
          ("ArcxAnalyticsSdk::_getCurrentChainId: chainIdHex is: " ++ jvalToString (JVal.str ""))],
       Except.error
         ("ArcxAnalyticsSdk::_getCurrentChainId: chainIdHex is: " ++
           jvalToString (JVal.str "")))) ∧
    ((_getCurrentChainId (fun _ _ => JVal.str "")
        (SdkState.mk cfgOn (some 0) (some ReqFun.orig) [] 0 none none)
        (World.mk [⟨false, ReqFun.orig, []⟩])).2.isOk = false ∧
     _handleAccountConnected (fun _ _ => JVal.str "") "0xabc"
        (SdkState.mk cfgOn (some 0) (some ReqFun.orig) [] 0 none none)
        (World.mk [⟨false, ReqFun.orig, []⟩]) =
      ⟨(_getCurrentChainId (fun _ _ => JVal.str "")
          (SdkState.mk cfgOn (some 0) (some ReqFun.orig) [] 0 none none)
          (World.mk [⟨false, ReqFun.orig, []⟩])).1,
       SdkState.mk cfgOn (some 0) (some ReqFun.orig) [] 0 none (some "0xabc"),
       World.mk [⟨false, ReqFun.orig, []⟩],
       Except.map (fun _ => ())
         (_getCurrentChainId (fun _ _ => JVal.str "")
           (SdkState.mk cfgOn (some 0) (some ReqFun.orig) [] 0 none none)
           (World.mk [⟨false, ReqFun.orig, []⟩])).2⟩) :=
  ⟨(C8_chainid_failure_reports_then_throws (fun _ _ => JVal.str "")
      (SdkState.mk cfgOn none none [] 0 none none) (World.mk [])).1 rfl,
   (C8_chainid_failure_reports_then_throws (fun _ _ => JVal.str "")
      (SdkState.mk cfgOn (some 0) (some ReqFun.orig) [] 0 none none)
      (World.mk [⟨false, ReqFun.orig, []⟩])).2.1 0 rfl rfl rfl,
   (C8_chainid_failure_reports_then_throws (fun _ _ => JVal.str "")
      (SdkState.mk cfgOn (some 0) (some ReqFun.orig) [] 0 none none)
      (World.mk [⟨false, ReqFun.orig, []⟩])).2.2 "0xabc" rfl (Or.inr ⟨0, rfl, rfl, rfl⟩)⟩

/-- `Nat.toDigitsCore` never shortens its accumulator. -/
theorem toDigitsCore_length_le (b : Nat) (fuel : Nat) :
    ∀ (n : Nat) (ds : List Char), ds.length ≤ (Nat.toDigitsCore b fuel n ds).length := by
  induction fuel with
  | zero => intro n ds; exact Nat.le_refl _
  | succ fuel ih =>
      intro n ds
      rw [Nat.toDigitsCore]
      split
      · simp
      · exact Nat.le_trans (by simp) (ih _ _)

/-- With positive fuel, `Nat.toDigitsCore` produces at least one digit. -/
theorem toDigitsCore_succ_length (b fuel n : Nat) (ds : List Char) :
    ds.length + 1 ≤ (Nat.toDigitsCore b (fuel + 1) n ds).length := by
  rw [Nat.toDigitsCore]
  split
  · simp
  · exact Nat.le_trans (by simp) (toDigitsCore_length_le b fuel _ _)

/-- A string of positive length is not `isEmpty`. -/
theorem string_isEmpty_false_of_length (s : String) (h : s.length ≠ 0) : s.isEmpty = false := by
  cases he : s.isEmpty
  · rfl
  · rw [(String.isEmpty_iff s).mp he] at h
    exact absurd rfl h

/-- `Nat.repr` is never the empty string. -/
theorem nat_repr_isEmpty_false (n : Nat) : (Nat.repr n).isEmpty = false := by
  apply string_isEmpty_false_of_length
  show (Nat.toDigits 10 n).asString.length ≠ 0
  rw [List.length_asString]
  have h1 : (1 : Nat) ≤ (Nat.toDigits 10 n).length := by
    have := toDigitsCore_succ_length 10 n n []
    simpa [Nat.toDigits] using this
  omega

/-- `toString` of an integer is never the empty string. -/
theorem int_toString_isEmpty_false (i : Int) : (toString i).isEmpty = false := by
  show (Int.repr i).isEmpty = false
  cases i with
  | ofNat m => exact nat_repr_isEmpty_false m
  | negSucc m =>
      apply string_isEmpty_false_of_length
      show ("-" ++ Nat.repr (m + 1)).length ≠ 0
      rw [String.length_append]
      have h1 : ("-" : String).length = 1 := rfl
      omega

/-- `parseInt(s, 16).toString()` is never the empty string (it is `NaN` or a
decimal numeral). -/
theorem parseInt16String_isEmpty_false (s : String) : (parseInt16String s).isEmpty = false := by
  unfold parseInt16String
  cases h : parseInt16 s with
  | none => rfl
  | some i => exact int_toString_isEmpty_false i

/-- **C7**: starting from the disconnected state, delivering `accountsChanged`
with `["0xabc"]` and then with `[]` emits exactly one connect event followed
by exactly one disconnect event, both carrying the chain id resolved from the
provider's `eth_chainId` response, converted from hex to its decimal string
form. -/
theorem C7_connect_then_disconnect_example (sem : Nat → RequestArguments → JVal)
    (s : SdkState) (w : World) (pid : Nat) (hex : String)
    (hprov : s.provider = some pid)
    (horig : (w.getP pid).request = ReqFun.orig)
    (hchain : sem pid ⟨"eth_chainId", none⟩ = JVal.str hex)
    (hhex : hex.isEmpty = false)
    (hacct : s.currentConnectedAccount = none)
    (hcid : s.currentChainId = none) :
    (_onAccountsChanged sem ["0xabc"] s w).out =
      [Output.provCall ⟨"eth_chainId", none⟩,
       Output.emit CONNECT_EVENT
         [("chain", JVal.str (parseInt16String hex)), ("account", JVal.str "0xabc")]] ∧
    (_onAccountsChanged sem []
        (_onAccountsChanged sem ["0xabc"] s w).sdk
        (_onAccountsChanged sem ["0xabc"] s w).world).out =
      [Output.emit DISCONNECT_EVENT
        [("account", JVal.str "0xabc"), ("chain", JVal.str (parseInt16String hex))]] := by
  have h1 : _onAccountsChanged sem ["0xabc"] s w =
      ⟨[Output.provCall ⟨"eth_chainId", none⟩,
        Output.emit CONNECT_EVENT
          [("chain", JVal.str (parseInt16String hex)), ("account", JVal.str "0xabc")]],
       { s with currentConnectedAccount := some "0xabc",
                currentChainId := some (parseInt16String hex) },
       w, Except.ok ()⟩ := by
    simp [_onAccountsChanged, _handleAccountConnected, hacct, _getCurrentChainId, hprov,
      providerRequest, horig, runReq, hchain, JVal.isFalsy, hhex, jvalToString,
      connectWallet, event]
  have h2 : _onAccountsChanged sem []
      ({ s with currentConnectedAccount := some "0xabc",
                currentChainId := some (parseInt16String hex) } : SdkState) w =
      ⟨[Output.emit DISCONNECT_EVENT
          [("account", JVal.str "0xabc"), ("chain", JVal.str (parseInt16String hex))]],
       { s with currentConnectedAccount := none, currentChainId := none },
       w, Except.ok ()⟩ := by
    simp [_onAccountsChanged, _handleAccountDisconnected, falsyOptStr,
      parseInt16String_isEmpty_false, event, show ("0xabc").isEmpty = false from rfl]
  rw [h1, h2]
  exact ⟨rfl, rfl⟩

/-- Witness for **C7** with the chain id `0xa` (decimal `10`) on a concrete
provider. -/
theorem C7_connect_then_disconnect_example_witness :
    (_onAccountsChanged semA ["0xabc"]
        (SdkState.mk cfgOn (some 0) (some ReqFun.orig) [] 0 none none)
        (World.mk [⟨false, ReqFun.orig, []⟩])).out =
      [Output.provCall ⟨"eth_chainId", none⟩,
       Output.emit CONNECT_EVENT
         [("chain", JVal.str (parseInt16String "0xa")), ("account", JVal.str "0xabc")]] ∧
    (_onAccountsChanged semA []
        (_onAccountsChanged semA ["0xabc"]
          (SdkState.mk cfgOn (some 0) (some ReqFun.orig) [] 0 none none)
          (World.mk [⟨false, ReqFun.orig, []⟩])).sdk
        (_onAccountsChanged semA ["0xabc"]
          (SdkState.mk cfgOn (some 0) (some ReqFun.orig) [] 0 none none)
          (World.mk [⟨false, ReqFun.orig, []⟩])).world).out =
      [Output.emit DISCONNECT_EVENT
        [("account", JVal.str "0xabc"), ("chain", JVal.str (parseInt16String "0xa"))]] :=
  C7_connect_then_disconnect_example semA
    (SdkState.mk cfgOn (some 0) (some ReqFun.orig) [] 0 none none)
    (World.mk [⟨false, ReqFun.orig, []⟩]) 0 "0xa" rfl rfl rfl rfl rfl rfl

/-- Every event emitted from inside a wrapped request chain is a tracking
event (transaction-triggered or signing), never a connect event. -/
theorem runReq_emit_tracking (sem : RequestArguments → JVal) (aux : Bool) (top f : ReqFun)
    (args : RequestArguments) :
    ∀ n a, Output.emit n a ∈ (runReq sem aux top f args).1 →
      n = TRANSACTION_TRIGGERED ∨ n = SIGNING_EVENT := by
  induction aux, top, f, args using runReq.induct sem with
  | case1 => exact fun n a h => absurd h (by simp [runReq])
  | case2 aux top saved args ih =>
      intro n a h
      cases hp : args.params with
      | none =>
          simp only [runReq, hp] at h
          exact ih n a h
      | some ps =>
          simp only [runReq, hp] at h
          rcases List.mem_append.mp h with h1 | h1
          · rcases List.mem_append.mp h1 with h2 | h2
            · split at h2
              · simp at h2
                exact Or.inr h2.1
              · simp at h2
            · split at h2
              · simp at h2
                exact Or.inr h2.1
              · simp at h2
          · exact ih n a h1
  | case3 aux top saved args ps hps htrig tp e he =>
      intro n a h
      simp only [runReq, hps] at h
      rw [dif_pos htrig] at h
      simp only [he] at h
      simp at h
  | case4 aux top saved args ps hps htrig tp fromV hfrom o₀ e hrun ihaux =>
      intro n a h
      simp only [runReq, hps] at h
      rw [dif_pos htrig] at h
      simp only [hfrom, hrun] at h
      exact ihaux n a (by rw [hrun]; exact h)
  | case5 aux top saved args ps hps htrig tp fromV hfrom o₀ nonce hrun ihaux ihfwd =>
      intro n a h
      simp only [runReq, hps] at h
      rw [dif_pos htrig] at h
      simp only [hfrom, hrun] at h
      rcases List.mem_append.mp h with h1 | h1
      · rcases List.mem_append.mp h1 with h2 | h2
        · exact ihaux n a (by rw [hrun]; exact h2)
        · simp at h2
          exact Or.inl h2.1
      · exact ihfwd n a h1
  | case6 aux top saved args ps hps hntrig ih =>
      intro n a h
      simp only [runReq, hps] at h
      rw [dif_neg hntrig] at h
      exact ih n a h
  | case7 aux top saved args hps ih =>
      intro n a h
      simp only [runReq, hps] at h
      exact ih n a h

/-- Number of connect events in an output list. -/
def countConnect (os : List Output) : Nat :=
  os.countP (fun o =>
    match o with
    | Output.emit n _ => n == CONNECT_EVENT
    | _ => false)

/-- A wrapped request chain emits no connect event. -/
theorem countConnect_runReq (sem : RequestArguments → JVal) (aux : Bool) (top f : ReqFun)
    (args : RequestArguments) : countConnect (runReq sem aux top f args).1 = 0 := by
  rw [countConnect, List.countP_eq_zero]
  intro o ho
  cases o with
  | emit n a =>
      rcases runReq_emit_tracking sem aux top f args n a ho with h | h <;>
        simp [h, CONNECT_EVENT, TRANSACTION_TRIGGERED, SIGNING_EVENT]
  | reportLog l m => simp
  | consoleWarn m => simp
  | provCall a => simp

/-- A provider `request` call emits no connect event. -/
theorem countConnect_providerRequest (sem : Nat → RequestArguments → JVal) (w : World)
    (pid : Nat) (args : RequestArguments) :
    countConnect (providerRequest sem w pid args).1 = 0 :=
  countConnect_runReq (sem pid) true _ _ args

/-- `_getCurrentChainId` emits no connect event. -/
theorem countConnect_getCurrentChainId (sem : Nat → RequestArguments → JVal) (s : SdkState)
    (w : World) : countConnect (_getCurrentChainId sem s w).1 = 0 := by
  cases hs : s.provider with
  | none => simp [_getCurrentChainId, hs, countConnect, _reportErrorAndThrow, _report]
  | some pid =>
      have h0 := countConnect_providerRequest sem w pid ⟨"eth_chainId", none⟩
      cases hr : providerRequest sem w pid ⟨"eth_chainId", none⟩ with
      | mk o res =>
          rw [hr] at h0
          cases res with
          | error e =>
              simp only [_getCurrentChainId, hs, hr]
              exact h0
          | ok v =>
              by_cases hf : v.isFalsy = true
              · simp only [_getCurrentChainId, hs, hr, hf, if_true]
                have h1 : countConnect o = 0 := h0
                rw [countConnect, List.countP_append]
                rw [countConnect] at h1
                simp [h1, _reportErrorAndThrow, _report]
              · simp only [_getCurrentChainId, hs, hr]
                rw [if_neg hf]
                exact h0

/-- `_handleAccountConnected` records the account it was given. -/
theorem handleConnected_account (sem : Nat → RequestArguments → JVal) (a : String)
    (s : SdkState) (w : World) :
    (_handleAccountConnected sem a s w).sdk.currentConnectedAccount = some a := by
  unfold _handleAccountConnected
  by_cases hc : s.currentConnectedAccount = some a
  · simp only [hc, if_true]
  · simp only [hc, if_false]
    cases hr : _getCurrentChainId sem { s with currentConnectedAccount := some a } w with
    | mk o res =>
        cases res with
        | error e => simp [hr]
        | ok chain => simp [hr]

/-- `_handleAccountConnected` emits at most one connect event. -/
theorem handleConnected_countConnect_le_one (sem : Nat → RequestArguments → JVal) (a : String)
    (s : SdkState) (w : World) :
    countConnect (_handleAccountConnected sem a s w).out ≤ 1 := by
  unfold _handleAccountConnected
  by_cases hc : s.currentConnectedAccount = some a
  · simp [hc, countConnect]
  · simp only [hc, if_false]
    have h0 := countConnect_getCurrentChainId sem { s with currentConnectedAccount := some a } w
    cases hr : _getCurrentChainId sem { s with currentConnectedAccount := some a } w with
    | mk o res =>
        rw [hr] at h0
        have h1 : countConnect o = 0 := h0
        cases res with
        | error e =>
            show countConnect o ≤ 1
            omega
        | ok chain =>
            show countConnect (o ++ connectWallet chain a) ≤ 1
            rw [countConnect, List.countP_append]
            rw [countConnect] at h1
            simp [connectWallet, event, List.countP_cons, List.countP_nil, h1]

/-- An `accountsChanged` delivery whose first account is already the
connected one is a complete no-op. -/
theorem onAccountsChanged_same (sem : Nat → RequestArguments → JVal) (a : String)
    (rest : List String) (s : SdkState) (w : World)
    (h : s.currentConnectedAccount = some a) :
    _onAccountsChanged sem (a :: rest) s w = ⟨[], s, w, Except.ok ()⟩ := by
  simp [_onAccountsChanged, _handleAccountConnected, h]

/-- **C4**: delivering `accountsChanged` twice in a row with the same first
account emits at most one connect event: the second delivery produces no
output at all (no chain-id fetch, no emission) and leaves the state and the
world unchanged, because the account equals the currently connected one. -/
theorem C4_same_account_twice_connects_once (sem : Nat → RequestArguments → JVal)
    (a : String) (rest₁ rest₂ : List String) (s : SdkState) (w : World) :
    (_onAccountsChanged sem (a :: rest₂)
        (_onAccountsChanged sem (a :: rest₁) s w).sdk
        (_onAccountsChanged sem (a :: rest₁) s w).world).out = [] ∧
    (_onAccountsChanged sem (a :: rest₂)
        (_onAccountsChanged sem (a :: rest₁) s w).sdk
        (_onAccountsChanged sem (a :: rest₁) s w).world).sdk =
      (_onAccountsChanged sem (a :: rest₁) s w).sdk ∧
    (_onAccountsChanged sem (a :: rest₂)
        (_onAccountsChanged sem (a :: rest₁) s w).sdk
        (_onAccountsChanged sem (a :: rest₁) s w).world).world =
      (_onAccountsChanged sem (a :: rest₁) s w).world ∧
    countConnect ((_onAccountsChanged sem (a :: rest₁) s w).out ++
        (_onAccountsChanged sem (a :: rest₂)
          (_onAccountsChanged sem (a :: rest₁) s w).sdk
          (_onAccountsChanged sem (a :: rest₁) s w).world).out) ≤ 1 := by
  have hacct : (_onAccountsChanged sem (a :: rest₁) s w).sdk.currentConnectedAccount = some a :=
    handleConnected_account sem a s w
  have hsecond := onAccountsChanged_same sem a rest₂
    (_onAccountsChanged sem (a :: rest₁) s w).sdk
    (_onAccountsChanged sem (a :: rest₁) s w).world hacct
  refine ⟨by rw [hsecond], by rw [hsecond], by rw [hsecond], ?_⟩
  rw [hsecond]
  show countConnect ((_onAccountsChanged sem (a :: rest₁) s w).out ++ []) ≤ 1
  rw [List.append_nil]
  show countConnect (_handleAccountConnected sem a s w).out ≤ 1
  exact handleConnected_countConnect_le_one sem a s w

/-- For a request that is not an `eth_sendTransaction` with array params, the
wrapped chain always resolves to the underlying provider's response. -/
theorem runReq_res_of_not_tx (sem : RequestArguments → JVal) (aux : Bool) (top : ReqFun)
    (args : RequestArguments) (h : args.method ≠ "eth_sendTransaction" ∨ args.params = none) :
    ∀ f : ReqFun, (runReq sem aux top f args).2 = Except.ok (sem args) := by
  intro f
  induction f with
  | orig => simp [runReq]
  | txWrapped saved ih =>
      cases hp : args.params with
      | none =>
          simp only [runReq, hp]
          exact ih
      | some ps =>
          rcases h with h | h
          · simp only [runReq, hp]
            rw [dif_neg (fun hc => h hc.2)]
            exact ih
          · rw [h] at hp
            cases hp
  | signWrapped saved ih =>
      simp only [runReq]
      exact ih

/-- The events the signing wrapper emits for a given request (the
`signTypedData_v4` / `eth_sign` / `personal_sign` interceptions). -/
def signingEvents (args : RequestArguments) : List Output :=
  match args.params with
  | some ps =>
      (if args.method = "signTypedData_v4" ∨ args.method = "eth_sign" then
        [Output.emit SIGNING_EVENT
          [("account", ps.getD 0 JVal.undef), ("messageToSign", ps.getD 1 JVal.undef)]]
      else []) ++
      (if args.method = "personal_sign" then
        [Output.emit SIGNING_EVENT
          [("messageToSign", ps.getD 0 JVal.undef), ("account", ps.getD 1 JVal.undef),
           ("password", ps.getD 2 JVal.undef)]]
      else [])
  | none => []

/-- **C3** (counterexample): the claim fails for an `eth_sendTransaction`
call with an empty params array: the installed transaction wrapper throws a
`TypeError` (from `transactionParams.from` on `undefined`) without forwarding,
while the saved original request would have answered `ok`. -/
theorem C3_counterexample_empty_sendTransaction_params :
    runReq (fun _ => JVal.str "ok") true (ReqFun.txWrapped ReqFun.orig)
        (ReqFun.txWrapped ReqFun.orig) ⟨"eth_sendTransaction", some []⟩ =
      ([], Except.error "TypeError: Cannot read properties of undefined (reading from)") ∧
    runReq (fun _ => JVal.str "ok") true ReqFun.orig ReqFun.orig
        ⟨"eth_sendTransaction", some []⟩ =
      ([Output.provCall ⟨"eth_sendTransaction", some []⟩], Except.ok (JVal.str "ok")) := by
  constructor
  · simp [runReq, getProp]
  · simp [runReq]

/-- **C3** (amended): the signing wrapper forwards every call to its saved
request function unchanged, returning its result unmodified, after emitting
the signing events for the intercepted signing methods; the transaction
wrapper forwards every call except a triggered `eth_sendTransaction`
unchanged, and for a triggered `eth_sendTransaction` whose first params
element supports the `from` access it first fetches the nonce through the
provider's current request, emits the transaction-triggered event (spread
transaction fields plus nonce), then forwards and returns the forwarded
result unmodified; an `eth_sendTransaction` whose first params element is
`undefined`/`null` instead throws without forwarding. -/
theorem C3_wrapper_transparent_amended (sem : RequestArguments → JVal) (aux : Bool)
    (top saved : ReqFun) (args : RequestArguments) :
    (runReq sem aux top (ReqFun.signWrapped saved) args =
      (signingEvents args ++ (runReq sem aux top saved args).1,
       (runReq sem aux top saved args).2)) ∧
    (args.method ≠ "eth_sendTransaction" ∨ args.params = none →
      runReq sem aux top (ReqFun.txWrapped saved) args = runReq sem aux top saved args) ∧
    (∀ ps fromV, args.params = some ps → args.method = "eth_sendTransaction" →
      getProp (ps.getD 0 JVal.undef) "from" = Except.ok fromV →
      runReq sem true top (ReqFun.txWrapped saved) args =
        ((runReq sem false top top
            ⟨"eth_getTransactionCount", some [fromV, JVal.str "latest"]⟩).1 ++
          [Output.emit TRANSACTION_TRIGGERED
            (spreadFields (ps.getD 0 JVal.undef) ++
              [("nonce", sem ⟨"eth_getTransactionCount", some [fromV, JVal.str "latest"]⟩)])] ++
          (runReq sem true top saved args).1,
         (runReq sem true top saved args).2)) ∧
    (∀ ps e, args.params = some ps → args.method = "eth_sendTransaction" →
      getProp (ps.getD 0 JVal.undef) "from" = Except.error e →
      runReq sem true top (ReqFun.txWrapped saved) args = ([], Except.error e)) := by
  refine ⟨?_, ?_, ?_, ?_⟩
  · simp [runReq, signingEvents]
  · intro h
    cases hp : args.params with
    | none => simp only [runReq, hp]
    | some ps =>
        rcases h with h | h
        · simp only [runReq, hp]
          rw [dif_neg (fun hc => h hc.2)]
        · rw [h] at hp
          cases hp
  · intro ps fromV hp hm hfrom
    have hne : ("eth_getTransactionCount" : String) ≠ "eth_sendTransaction" := by decide
    have hauxres := runReq_res_of_not_tx sem false top
      ⟨"eth_getTransactionCount", some [fromV, JVal.str "latest"]⟩ (Or.inl hne) top
    cases haux : runReq sem false top top
        ⟨"eth_getTransactionCount", some [fromV, JVal.str "latest"]⟩ with
    | mk o₀ r₀ =>
        rw [haux] at hauxres
        simp only at hauxres
        simp only [runReq, hp]
        rw [dif_pos ⟨trivial, hm⟩]
        simp only [hfrom, haux, hauxres]
  · intro ps e hp hm hfrom
    simp only [runReq, hp]
    rw [dif_pos ⟨trivial, hm⟩]
    simp only [hfrom]

/-- Witness for **C3** (amended) on a concrete signing call and a concrete
transaction call. -/
theorem C3_wrapper_transparent_amended_witness :
    (runReq (fun _ => JVal.str "ok") true ReqFun.orig
        (ReqFun.signWrapped ReqFun.orig) ⟨"personal_sign", some [JVal.str "m", JVal.str "a"]⟩ =
      (signingEvents ⟨"personal_sign", some [JVal.str "m", JVal.str "a"]⟩ ++
        (runReq (fun _ => JVal.str "ok") true ReqFun.orig ReqFun.orig
          ⟨"personal_sign", some [JVal.str "m", JVal.str "a"]⟩).1,
       (runReq (fun _ => JVal.str "ok") true ReqFun.orig ReqFun.orig
          ⟨"personal_sign", some [JVal.str "m", JVal.str "a"]⟩).2)) ∧
    (runReq (fun _ => JVal.str "ok") true (ReqFun.txWrapped ReqFun.orig)
        (ReqFun.txWrapped ReqFun.orig) ⟨"eth_chainId", none⟩ =
      runReq (fun _ => JVal.str "ok") true (ReqFun.txWrapped ReqFun.orig) ReqFun.orig
        ⟨"eth_chainId", none⟩) ∧
    (runReq (fun _ => JVal.str "ok") true (ReqFun.txWrapped ReqFun.orig)
        (ReqFun.txWrapped ReqFun.orig)
        ⟨"eth_sendTransaction", some [JVal.obj [("from", "0xme")]]⟩ =
      ((runReq (fun _ => JVal.str "ok") false (ReqFun.txWrapped ReqFun.orig)
          (ReqFun.txWrapped ReqFun.orig)
          ⟨"eth_getTransactionCount", some [JVal.str "0xme", JVal.str "latest"]⟩).1 ++
        [Output.emit TRANSACTION_TRIGGERED
          (spreadFields (JVal.obj [("from", "0xme")]) ++ [("nonce", JVal.str "ok")])] ++
        (runReq (fun _ => JVal.str "ok") true (ReqFun.txWrapped ReqFun.orig) ReqFun.orig
          ⟨"eth_sendTransaction", some [JVal.obj [("from", "0xme")]]⟩).1,
       (runReq (fun _ => JVal.str "ok") true (ReqFun.txWrapped ReqFun.orig) ReqFun.orig
          ⟨"eth_sendTransaction", some [JVal.obj [("from", "0xme")]]⟩).2)) ∧
    (runReq (fun _ => JVal.str "ok") true (ReqFun.txWrapped ReqFun.orig)
        (ReqFun.txWrapped ReqFun.orig) ⟨"eth_sendTransaction", some []⟩ =
      ([], Except.error "TypeError: Cannot read properties of undefined (reading from)")) :=
  ⟨(C3_wrapper_transparent_amended (fun _ => JVal.str "ok") true ReqFun.orig ReqFun.orig
      ⟨"personal_sign", some [JVal.str "m", JVal.str "a"]⟩).1,
   (C3_wrapper_transparent_amended (fun _ => JVal.str "ok") true (ReqFun.txWrapped ReqFun.orig)
      ReqFun.orig ⟨"eth_chainId", none⟩).2.1 (Or.inl (by decide)),
   (C3_wrapper_transparent_amended (fun _ => JVal.str "ok") true (ReqFun.txWrapped ReqFun.orig)
      ReqFun.orig ⟨"eth_sendTransaction", some [JVal.obj [("from", "0xme")]]⟩).2.2.1
      [JVal.obj [("from", "0xme")]] (JVal.str "0xme") rfl rfl rfl,
   (C3_wrapper_transparent_amended (fun _ => JVal.str "ok") true (ReqFun.txWrapped ReqFun.orig)
      ReqFun.orig ⟨"eth_sendTransaction", some []⟩).2.2.2 []
      "TypeError: Cannot read properties of undefined (reading from)" rfl rfl rfl⟩

/-- **C9** (counterexample): `setProvider` with a different provider is an
operation outside the three handlers that does mutate the session-identity
pair: from a connected state it clears both fields. -/
theorem C9_counterexample_setProvider_clears_pair :
    (SdkState.mk cfgOff (some 0) (some ReqFun.orig) [] 0 (some "1")
        (some "0xa")).currentChainId = some "1" ∧
    (SdkState.mk cfgOff (some 0) (some ReqFun.orig) [] 0 (some "1")
        (some "0xa")).currentConnectedAccount = some "0xa" ∧
    (setProvider semA (some 1)
        (SdkState.mk cfgOff (some 0) (some ReqFun.orig) [] 0 (some "1") (some "0xa"))
        (World.mk [⟨false, ReqFun.orig, []⟩, ⟨false, ReqFun.orig, []⟩])).sdk.currentChainId
      = none ∧
    (setProvider semA (some 1)
        (SdkState.mk cfgOff (some 0) (some ReqFun.orig) [] 0 (some "1") (some "0xa"))
        (World.mk [⟨false, ReqFun.orig, []⟩,
          ⟨false, ReqFun.orig, []⟩])).sdk.currentConnectedAccount = none := by
  refine ⟨rfl, rfl, ?_, ?_⟩ <;> rfl

/-- **C9** (amended): the session-identity pair is mutated only by the
`accountsChanged` / `chainChanged` / `disconnect` handlers and by
`setProvider` (which clears it when switching providers and may repopulate it
through `_reportCurrentWallet`): every other operation of the SDK — the
public emission methods, `_report`, and the two interception installers —
leaves both fields unchanged. -/
theorem C9_pair_frame_amended (op : SdkOp) (s : SdkState) (w : World) :
    (runOp op s w).sdk.currentChainId = s.currentChainId ∧
    (runOp op s w).sdk.currentConnectedAccount = s.currentConnectedAccount := by
  cases op with
  | opEvent n a => exact ⟨rfl, rfl⟩
  | opAttribute a => exact ⟨rfl, rfl⟩
  | opPage u => exact ⟨rfl, rfl⟩
  | opConnectWallet c a => exact ⟨rfl, rfl⟩
  | opTransaction c t m => exact ⟨rfl, rfl⟩
  | opReferrer r d => exact ⟨rfl, rfl⟩
  | opReport l m => exact ⟨rfl, rfl⟩
  | opTrackSigning =>
      cases hs : s.provider with
      | none => simp [runOp, _trackSigning, hs]
      | some pid =>
          cases hnw : (w.getP pid).nonWritable <;>
            simp [runOp, _trackSigning, hs, hnw, setRequestSlot]
  | opTrackTransactions =>
      cases hs : s.provider with
      | none => simp [runOp, _trackTransactions, hs]
      | some pid =>
          cases hnw : (w.getP pid).nonWritable <;>
            simp [runOp, _trackTransactions, hs, hnw, setRequestSlot]

theorem getP_setP_ne (w : World) (i j : Nat) (p : ProviderObj) (h : i ≠ j) :
    (w.setP i p).getP j = w.getP j := by
  simp [World.setP, World.getP, List.getElem?_set_ne h]

theorem getP_setP_self (w : World) (i : Nat) (p : ProviderObj) (h : i < w.providers.length) :
    (w.setP i p).getP i = p := by
  simp [World.setP, World.getP, List.getElem?_set_self h]

theorem length_setP (w : World) (i : Nat) (p : ProviderObj) :
    (w.setP i p).providers.length = w.providers.length := by
  simp [World.setP]

def foldRemove (L : List (String × Nat)) (m : List (String × Nat)) : List (String × Nat) :=
  m.foldl (fun acc e => removeFirst acc e.1 e.2) L

theorem removeFirst_sublist (n : String) (l : Nat) :
    ∀ L : List (String × Nat), List.Sublist (removeFirst L n l) L := by
  intro L
  induction L with
  | nil => simp [removeFirst]
  | cons x xs ih =>
      obtain ⟨a, b⟩ := x
      rw [removeFirst]
      split
      · exact List.sublist_cons_self _ _
      · exact List.Sublist.cons₂ _ ih

theorem not_mem_removeFirst_of_count_le_one (n : String) (l : Nat) :
    ∀ L : List (String × Nat), L.count (n, l) ≤ 1 → (n, l) ∉ removeFirst L n l := by
  intro L
  induction L with
  | nil => intro _; simp [removeFirst]
  | cons x xs ih =>
      obtain ⟨a, b⟩ := x
      intro h
      rw [removeFirst]
      split
      · next hc =>
          obtain ⟨rfl, rfl⟩ := hc
          have h0 : xs.count (a, b) = 0 := by
            rw [List.count_cons] at h
            simp at h
            omega
          exact List.count_eq_zero.mp h0
      · next hc =>
          intro hmem
          rcases List.mem_cons.mp hmem with heq | hmem'
          · injection heq with h1 h2
            exact hc ⟨h1.symm, h2.symm⟩
          · have h' : xs.count (n, l) ≤ 1 := by
              rw [List.count_cons] at h
              omega
            exact ih h' hmem'



theorem foldRemove_sublist (m : List (String × Nat)) :
    ∀ L : List (String × Nat), List.Sublist (foldRemove L m) L := by
  induction m with
  | nil => intro L; exact List.Sublist.refl L
  | cons x rest ih =>
      intro L
      exact List.Sublist.trans (ih (removeFirst L x.1 x.2)) (removeFirst_sublist x.1 x.2 L)

theorem not_mem_foldRemove (m : List (String × Nat)) (L : List (String × Nat))
    (x : String × Nat) (h : x ∉ L) : x ∉ foldRemove L m :=
  fun hm => h ((foldRemove_sublist m L).subset hm)

theorem foldRemove_removes (m : List (String × Nat)) :
    ∀ L : List (String × Nat), (m.map Prod.fst).Nodup →
      (∀ e ∈ m, L.count e ≤ 1) → ∀ e ∈ m, e ∉ foldRemove L m := by
  induction m with
  | nil => intro L _ _ e he; cases he
  | cons x rest ih =>
      obtain ⟨n, l⟩ := x
      intro L hkeys hcnt e he
      show e ∉ foldRemove (removeFirst L n l) rest
      rcases List.mem_cons.mp he with rfl | he'
      · exact not_mem_foldRemove rest _ _
          (not_mem_removeFirst_of_count_le_one n l L (hcnt _ (List.mem_cons_self _ _)))
      · refine ih (removeFirst L n l) ?_ ?_ e he'
        · exact (List.nodup_cons.mp hkeys).2
        · intro e' he''
          exact Nat.le_trans
            ((removeFirst_sublist n l L).count_le e') (hcnt e' (List.mem_cons_of_mem _ he''))

theorem detachListeners_spec (pid : Nat) (m : List (String × Nat)) :
    ∀ (w : World), pid < w.providers.length →
      (detachListeners pid m w).providers.length = w.providers.length ∧
      (detachListeners pid m w).getP pid =
        { w.getP pid with listeners := foldRemove (w.getP pid).listeners m } := by
  induction m with
  | nil =>
      intro w hl
      exact ⟨rfl, rfl⟩
  | cons x rest ih =>
      obtain ⟨n, l⟩ := x
      intro w hl
      have hstep : detachListeners pid ((n, l) :: rest) w =
          detachListeners pid rest (w.removeListenerP pid n l) := rfl
      rw [hstep]
      have hl' : pid < (w.removeListenerP pid n l).providers.length := by
        rw [World.removeListenerP, length_setP]
        exact hl
      obtain ⟨ih1, ih2⟩ := ih (w.removeListenerP pid n l) hl'
      have hself : (w.removeListenerP pid n l).getP pid =
          { w.getP pid with listeners := removeFirst (w.getP pid).listeners n l } :=
        getP_setP_self w pid _ hl
      constructor
      · rw [ih1, World.removeListenerP, length_setP]
      · rw [ih2, hself]
        rfl

theorem detachListeners_frame (pid : Nat) (m : List (String × Nat)) :
    ∀ (w : World) (j : Nat), j ≠ pid →
      (detachListeners pid m w).getP j = w.getP j := by
  induction m with
  | nil => intro w j hj; rfl
  | cons x rest ih =>
      obtain ⟨n, l⟩ := x
      intro w j hj
      show (detachListeners pid rest (w.removeListenerP pid n l)).getP j = _
      rw [ih (w.removeListenerP pid n l) j hj, World.removeListenerP,
        getP_setP_ne _ _ _ _ (fun hc => hj hc.symm)]



theorem handleConnected_world (sem : Nat → RequestArguments → JVal) (a : String)
    (s : SdkState) (w : World) : (_handleAccountConnected sem a s w).world = w := by
  unfold _handleAccountConnected
  by_cases hc : s.currentConnectedAccount = some a
  · simp [hc]
  · simp only [hc, if_false]
    cases hr : _getCurrentChainId sem { s with currentConnectedAccount := some a } w with
    | mk o res => cases res <;> rfl

theorem reportCurrentWallet_world (sem : Nat → RequestArguments → JVal) (s : SdkState)
    (w : World) : (_reportCurrentWallet sem s w).world = w := by
  cases hs : s.provider with
  | none => simp [_reportCurrentWallet, hs]
  | some pid =>
      simp only [_reportCurrentWallet, hs]
      cases hr : providerRequest sem w pid ⟨"eth_accounts", none⟩ with
      | mk o res =>
          cases res with
          | error e => rfl
          | ok accounts =>
              cases hacc : ethAccountsFirst accounts with
              | none => simp [hacc]
              | some account => simp [hacc, handleConnected_world]

theorem registerAccountsChanged_fst_provider (s : SdkState) (w : World) :
    (_registerAccountsChangedListener s w).1.provider = s.provider := rfl

theorem registerAccountsChanged_fst_config (s : SdkState) (w : World) :
    (_registerAccountsChangedListener s w).1.sdkConfig = s.sdkConfig := rfl

theorem registerChainChanged_fst_provider (s : SdkState) (w : World) :
    (_registerChainChangedListener s w).1.provider = s.provider := rfl

theorem registerChainChanged_fst_config (s : SdkState) (w : World) :
    (_registerChainChangedListener s w).1.sdkConfig = s.sdkConfig := rfl

theorem registerAccountsChanged_world_frame (s : SdkState) (w : World) (j : Nat)
    (h : s.provider ≠ some j) :
    (_registerAccountsChangedListener s w).2.getP j = w.getP j := by
  cases hs : s.provider with
  | none => simp [_registerAccountsChangedListener, hs]
  | some pid =>
      have hj : pid ≠ j := fun hc => h (by rw [hs, hc])
      simp only [_registerAccountsChangedListener, hs]
      rw [World.onP, World.onP, getP_setP_ne _ _ _ _ hj, getP_setP_ne _ _ _ _ hj]

theorem registerChainChanged_world_frame (s : SdkState) (w : World) (j : Nat)
    (h : s.provider ≠ some j) :
    (_registerChainChangedListener s w).2.getP j = w.getP j := by
  cases hs : s.provider with
  | none => simp [_registerChainChangedListener, hs]
  | some pid =>
      have hj : pid ≠ j := fun hc => h (by rw [hs, hc])
      simp only [_registerChainChangedListener, hs]
      rw [World.onP, getP_setP_ne _ _ _ _ hj]

theorem trackSigning_world_frame (s : SdkState) (w : World) (j : Nat)
    (h : s.provider ≠ some j) :
    (_trackSigning s w).world.getP j = w.getP j := by
  cases hs : s.provider with
  | none => simp [_trackSigning, hs]
  | some pid =>
      have hj : pid ≠ j := fun hc => h (by rw [hs, hc])
      simp only [_trackSigning, hs]
      cases hnw : (w.getP pid).nonWritable with
      | true => simp [hnw]
      | false => simp [hnw, setRequestSlot, getP_setP_ne _ _ _ _ hj]

theorem trackTransactions_world_frame (s : SdkState) (w : World) (j : Nat)
    (h : s.provider ≠ some j) :
    (_trackTransactions s w).world.getP j = w.getP j := by
  cases hs : s.provider with
  | none => simp [_trackTransactions, hs]
  | some pid =>
      have hj : pid ≠ j := fun hc => h (by rw [hs, hc])
      simp only [_trackTransactions, hs]
      cases hnw : (w.getP pid).nonWritable with
      | true => simp [hnw]
      | false => simp [hnw, setRequestSlot, getP_setP_ne _ _ _ _ hj]

theorem initializeWeb3Tracking_world_frame (sem : Nat → RequestArguments → JVal) (s : SdkState)
    (w : World) (j : Nat) (h : s.provider ≠ some j) :
    (_initializeWeb3Tracking sem s w).world.getP j = w.getP j := by
  cases hs : s.provider with
  | none => simp [_initializeWeb3Tracking, hs]
  | some pid =>
      have hj : ¬pid = j := fun hc => h (by rw [hs, hc])
      by_cases h1 : s.sdkConfig.trackWalletConnections <;>
        by_cases h2 : s.sdkConfig.trackChainChanges <;>
          by_cases h3 : s.sdkConfig.trackSigning <;>
            by_cases h4 : s.sdkConfig.trackTransactions <;>
              simp [_initializeWeb3Tracking, hs, h1, h2, h3, h4, hj,
                registerAccountsChanged_fst_provider, registerAccountsChanged_fst_config,
                registerChainChanged_fst_provider, registerChainChanged_fst_config,
                reportCurrentWallet_world,
                registerAccountsChanged_world_frame, registerChainChanged_world_frame,
                trackSigning_world_frame, trackTransactions_world_frame]



/-- **C2**: with a provider attached, calling `setProvider` with a different
provider fully reverses the prior interception before the new provider is
wrapped: the detach phase (which runs before anything touches the new
provider) empties the registered-listener map, removes every registered
listener from the old provider, and restores the old provider's `request` to
the saved `_originalRequest`; the rest of `setProvider` (re-registration and
wrapping, which target the new provider only) leaves the old provider object
exactly as the detach phase left it.  The hypotheses state invariants any
reachable instance satisfies: the listener map is a record (unique keys),
each registered listener occurs at most once on the provider, and a provider
that could be wrapped is writable (a non-writable one still holds the
original `request`). -/
theorem C2_setProvider_fully_reverses (sem : Nat → RequestArguments → JVal)
    (s : SdkState) (w : World) (oldPid : Nat) (newP : Option Nat) (r0 : ReqFun)
    (hprov : s.provider = some oldPid)
    (hnew : newP ≠ some oldPid)
    (horig : s.originalRequest = some r0)
    (hlen : oldPid < w.providers.length)
    (hwr : (w.getP oldPid).nonWritable = false ∨ (w.getP oldPid).request = r0)
    (hkeys : (s.registeredProviderListeners.map Prod.fst).Nodup)
    (hcnt : ∀ e ∈ s.registeredProviderListeners, (w.getP oldPid).listeners.count e ≤ 1) :
    (setProviderDetached { s with currentChainId := none, currentConnectedAccount := none } w).1.registeredProviderListeners = [] ∧
    (∀ e ∈ s.registeredProviderListeners,
      e ∉ ((setProviderDetached { s with currentChainId := none, currentConnectedAccount := none } w).2.getP oldPid).listeners) ∧
    ((setProviderDetached { s with currentChainId := none, currentConnectedAccount := none } w).2.getP oldPid).request = r0 ∧
    (setProvider sem newP s w).world.getP oldPid =
      (setProviderDetached { s with currentChainId := none, currentConnectedAccount := none } w).2.getP oldPid := by
  have hW1 := (detachListeners_spec oldPid s.registeredProviderListeners w hlen).2
  have hW1len := (detachListeners_spec oldPid s.registeredProviderListeners w hlen).1
  have hremoved := foldRemove_removes s.registeredProviderListeners
    (w.getP oldPid).listeners hkeys hcnt
  have hdspec : setProviderDetached { s with currentChainId := none, currentConnectedAccount := none } w =
      ({ s with
          currentChainId := none
          currentConnectedAccount := none
          registeredProviderListeners := [] },
       if (detachListeners oldPid s.registeredProviderListeners w |>.getP oldPid).nonWritable then
         detachListeners oldPid s.registeredProviderListeners w
       else (detachListeners oldPid s.registeredProviderListeners w).setP oldPid
         { (detachListeners oldPid s.registeredProviderListeners w).getP oldPid with
             request := r0 }) := by
    simp only [setProviderDetached, hprov, horig]
  have hgetP : ((setProviderDetached { s with currentChainId := none, currentConnectedAccount := none } w).2.getP oldPid) =
      { w.getP oldPid with
          listeners := foldRemove (w.getP oldPid).listeners s.registeredProviderListeners
          request := if (w.getP oldPid).nonWritable then (w.getP oldPid).request else r0 } := by
    rw [hdspec]
    cases hnw : (w.getP oldPid).nonWritable with
    | true =>
        have hnw1 : ((detachListeners oldPid s.registeredProviderListeners w).getP
            oldPid).nonWritable = true := by rw [hW1]; exact hnw
        simp only [hnw1, if_true]
        rw [hW1]
    | false =>
        have hnw1 : ((detachListeners oldPid s.registeredProviderListeners w).getP
            oldPid).nonWritable = false := by rw [hW1]; exact hnw
        simp only [hnw1, Bool.false_eq_true, if_false]
        rw [getP_setP_self _ _ _ (by rw [hW1len]; exact hlen), hW1]
        simp [hnw]
  refine ⟨by rw [hdspec], ?_, ?_, ?_⟩
  · intro e he
    rw [hgetP]
    exact hremoved e he
  · rw [hgetP]
    cases hnw : (w.getP oldPid).nonWritable with
    | true =>
        rcases hwr with hwr | hwr
        · rw [hnw] at hwr; cases hwr
        · simp only [if_true]
          exact hwr
    | false => simp only [Bool.false_eq_true, if_false]
  · have hcond : ¬newP = s.provider := by rw [hprov]; exact hnew
    simp only [setProvider, if_neg hcond]
    apply initializeWeb3Tracking_world_frame
    exact hnew

/-- Witness for **C2** on a concrete wrapped old provider with two recorded
listeners, swapped for a second provider. -/
theorem C2_setProvider_fully_reverses_witness :
    (setProviderDetached
        (SdkState.mk cfgOff (some 0) (some ReqFun.orig)
          [("accountsChanged", 1), ("disconnect", 2)] 3 none none)
        (World.mk
          [⟨false, ReqFun.signWrapped ReqFun.orig,
            [("accountsChanged", 1), ("disconnect", 2), ("click", 9)]⟩,
           ⟨false, ReqFun.orig, []⟩])).1.registeredProviderListeners = [] ∧
    (∀ e ∈ [(("accountsChanged" : String), (1 : Nat)), ("disconnect", 2)],
      e ∉ ((setProviderDetached
        (SdkState.mk cfgOff (some 0) (some ReqFun.orig)
          [("accountsChanged", 1), ("disconnect", 2)] 3 none none)
        (World.mk
          [⟨false, ReqFun.signWrapped ReqFun.orig,
            [("accountsChanged", 1), ("disconnect", 2), ("click", 9)]⟩,
           ⟨false, ReqFun.orig, []⟩])).2.getP 0).listeners) ∧
    ((setProviderDetached
        (SdkState.mk cfgOff (some 0) (some ReqFun.orig)
          [("accountsChanged", 1), ("disconnect", 2)] 3 none none)
        (World.mk
          [⟨false, ReqFun.signWrapped ReqFun.orig,
            [("accountsChanged", 1), ("disconnect", 2), ("click", 9)]⟩,
           ⟨false, ReqFun.orig, []⟩])).2.getP 0).request = ReqFun.orig ∧
    (setProvider semA (some 1)
        (SdkState.mk cfgOff (some 0) (some ReqFun.orig)
          [("accountsChanged", 1), ("disconnect", 2)] 3 (some "1") (some "0xa"))
        (World.mk
          [⟨false, ReqFun.signWrapped ReqFun.orig,
            [("accountsChanged", 1), ("disconnect", 2), ("click", 9)]⟩,
           ⟨false, ReqFun.orig, []⟩])).world.getP 0 =
      (setProviderDetached
        (SdkState.mk cfgOff (some 0) (some ReqFun.orig)
          [("accountsChanged", 1), ("disconnect", 2)] 3 none none)
        (World.mk
          [⟨false, ReqFun.signWrapped ReqFun.orig,
            [("accountsChanged", 1), ("disconnect", 2), ("click", 9)]⟩,
           ⟨false, ReqFun.orig, []⟩])).2.getP 0 :=
  C2_setProvider_fully_reverses semA
    (SdkState.mk cfgOff (some 0) (some ReqFun.orig)
      [("accountsChanged", 1), ("disconnect", 2)] 3 (some "1") (some "0xa"))
    (World.mk
      [⟨false, ReqFun.signWrapped ReqFun.orig,
        [("accountsChanged", 1), ("disconnect", 2), ("click", 9)]⟩,
       ⟨false, ReqFun.orig, []⟩])
    0 (some 1) ReqFun.orig rfl (by decide) rfl (by decide) (Or.inl rfl)
    (by decide) (by decide)

end Arcx
